import Mathlib

/-!
Verification development for the Expense AI policy question-answering core:
the question router, the hybrid retriever (keyword + vector merge), the
reranker stage with its fallback, and the answer synthesizer.

The repository snapshot contains the documentation (README routing flow,
alias registry, response schemas), the frontend TypeScript contracts and the
SQL schema, but not the backend Python modules themselves
(`app/policy/router_v1.py`, `rag/policy_search.py`, `rag/rerank.py`,
`rag/answer_gen.py`).  Those components are therefore modelled from the
specification and from the README description of them; each such
definition carries a doc comment saying so.
-/

namespace ExpenseAI

/-- Case-insensitive-ready substring test on character lists: `containsSub
needle hay` is true when `needle` occurs contiguously inside `hay`. -/
def containsSub (needle : List Char) : List Char → Bool
  | [] => needle.isEmpty
  | c :: rest => needle.isPrefixOf (c :: rest) || containsSub needle rest

/-- Lowercase a string as a character list (ASCII, as `str.lower()` does on
the registry vocabulary). -/
def lowerChars (s : String) : List Char :=
  s.data.map (fun c => if c.toNat ≥ 65 && c.toNat ≤ 90 then Char.ofNat (c.toNat + 32) else c)

/-- Lowercased-token membership: does the lowercased query contain `token`
(tokens in the registries below are already lowercase)? -/
def containsToken (q : String) (token : String) : Bool :=
  containsSub token.data (lowerChars q)

/-- Modelled from the spec: the fixed organization alias registry of the
Entity Extractor (`router_v1.py` is not in src/); canonical ids and alias
strings follow the README section "Supported Universities". -/
def orgAliases : List (String × List String) :=
  [ ("ASU", ["asu", "arizona state", "arizona state university"])
  , ("Columbia", ["columbia", "columbia university"])
  , ("Michigan", ["michigan", "university of michigan", "umich"])
  , ("Yale", ["yale", "yale university"])
  , ("Princeton", ["princeton", "princeton university"])
  , ("NYU", ["nyu", "new york university"])
  , ("Stanford", ["stanford", "stanford university"])
  , ("Rutgers", ["rutgers", "rutgers university"])
  ]

/-- The canonical organization ids, in registry order. -/
def supported_orgs : List String := orgAliases.map Prod.fst

/-- Modelled from the spec: organization extraction of the Entity Extractor
(`router_v1.py` is not in src/): case-insensitive alias matching against the
fixed registry, one canonical id per organization, no double counting. -/
def extract_orgs (q : String) : List String :=
  (orgAliases.filter (fun e => e.2.any (fun a => containsToken q a))).map Prod.fst

inductive PolicyType
  | travel
  | procurement
  | general
deriving DecidableEq, Repr, BEq

/-- Travel-indicative keywords, from the README section "Policy Type
Detection". -/
def travelKeywords : List String :=
  ["flight", "hotel", "lodging", "rental car", "mileage", "per diem", "airfare"]

/-- Procurement-indicative keywords, from the README section "Policy Type
Detection". -/
def procurementKeywords : List String :=
  ["procurement", "p-card", "purchase", "vendor", "invoice"]

/-- Modelled from the spec: policy-type inference of the Entity Extractor
(`router_v1.py` is not in src/); travel takes precedence when both keyword
lists match, and `none` means no signal (general/unset). -/
def infer_policy_type (q : String) : Option PolicyType :=
  if travelKeywords.any (containsToken q) then some .travel
  else if procurementKeywords.any (containsToken q) then some .procurement
  else none

/-- SQL-intent signals (possessive/personal expense vocabulary), from the
spec router rule 1 and the README routing flow. -/
def sqlSignals : List String := ["my expense", "status", "report", "reimbursement"]

/-- Modelled from the spec: SQL-intent detection, the first router rule
(`router_v1.py` is not in src/). -/
def has_sql_intent (q : String) : Bool := sqlSignals.any (containsToken q)

/-- Comparison-phrasing signals for the RAG_ALL router rule. -/
def comparisonSignals : List String := ["compare", " vs ", "versus", "difference between"]

/-- Modelled from the spec: detection of queries that imply a cross-university
comparison (`router_v1.py` is not in src/). -/
def implies_comparison (q : String) : Bool := comparisonSignals.any (containsToken q)

/-- Pattern signals for questions expecting a single universal yes/no-style
answer, from spec router rule 4 and the README routing flow. -/
def singleAnswerSignals : List String :=
  ["can i", "allowed", "what is the", "am i", "should i"]

/-- Modelled from the spec: detection of single-universal-answer phrasing
(`router_v1.py` is not in src/). -/
def expects_single_answer (q : String) : Bool := singleAnswerSignals.any (containsToken q)

structure Filters where
  org : Option String
  policy_type : Option PolicyType
  doc_name : Option String
deriving DecidableEq, Repr

inductive Route
  | SQL_NOT_READY
  | CLARIFY
  | RAG_FILTERED
  | RAG_ALL
deriving DecidableEq, Repr

structure RouterDecision where
  route : Route
  filters : Filters
  clarify_question : Option String
deriving DecidableEq, Repr

/-- The clarification question listing the supported organizations, as in the
README example response for the CLARIFY route. -/
def clarify_text : String :=
  "Which university policy should I use? (" ++ String.intercalate ", " supported_orgs ++ ")"

/-- Modelled from the spec: the router decision procedure of
`app/policy/router_v1.py` (not in src/), rules evaluated in order with first
match winning, following spec section 4.2 and the README routing flow:
SQL intent first; then two-or-more organizations or implied comparison
without explicit org gives RAG_ALL with org cleared; then an explicit org or
a single extracted org gives RAG_FILTERED (explicit wins); then
single-answer phrasing with no org gives CLARIFY; otherwise RAG_ALL. -/
def route_question (q : String) (explicit : Filters) : RouterDecision :=
  if has_sql_intent q then ⟨.SQL_NOT_READY, explicit, none⟩
  else
    let orgs := extract_orgs q
    let pt := explicit.policy_type.orElse (fun _ => infer_policy_type q)
    if 2 ≤ orgs.length || (explicit.org.isNone && implies_comparison q) then
      ⟨.RAG_ALL, ⟨none, pt, explicit.doc_name⟩, none⟩
    else if explicit.org.isSome then
      ⟨.RAG_FILTERED, ⟨explicit.org, pt, explicit.doc_name⟩, none⟩
    else
      match orgs with
      | [o] => ⟨.RAG_FILTERED, ⟨some o, pt, explicit.doc_name⟩, none⟩
      | _ =>
        if expects_single_answer q then
          ⟨.CLARIFY, ⟨none, pt, explicit.doc_name⟩, some clarify_text⟩
        else
          ⟨.RAG_ALL, ⟨none, pt, explicit.doc_name⟩, none⟩

/-- Filters with every field absent. -/
def noFilters : Filters := ⟨none, none, none⟩

/-- A policy-document chunk as stored in `policy_chunks`
(src/migrations, db_schema.sql): document name, chunk index (unique per
document), content, page, organization and policy type. -/
structure Chunk where
  doc_name : String
  chunk_index : Nat
  content : String
  page : Nat
  org : String
  policy_type : PolicyType
deriving DecidableEq, Repr

/-- Deduplication key of a chunk: `(doc_name, chunk_index)`, the unique
constraint `policy_chunks_docname_chunkindex_uniq`. -/
def chunkKey (c : Chunk) : String × Nat := (c.doc_name, c.chunk_index)

/-- Provenance tag of a merged candidate. -/
inductive Provenance
  | keyword
  | vector
  | both
deriving DecidableEq, Repr

/-- A chunk with a retrieval score, as returned by one search mode. -/
structure Scored where
  chunk : Chunk
  score : ℚ
deriving DecidableEq, Repr

/-- Deduplication key of a scored search result. -/
def scoredKey (s : Scored) : String × Nat := chunkKey s.chunk

/-- A merged retrieval candidate: a chunk, its score, and provenance. -/
structure Candidate where
  chunk : Chunk
  score : ℚ
  provenance : Provenance
deriving DecidableEq, Repr

/-- Deduplication key of a candidate. -/
def candKey (c : Candidate) : String × Nat := chunkKey c.chunk

/-- Modelled from the spec: the filter predicate built from non-null filter
fields by `build_filter_clauses` in `rag/policy_search.py` (not in src/),
applied identically to both search modes. -/
def matches_filters (f : Filters) (c : Chunk) : Bool :=
  (match f.org with | none => true | some o => c.org == o) &&
  (match f.policy_type with | none => true | some p => c.policy_type == p) &&
  (match f.doc_name with | none => true | some d => c.doc_name == d)

/-- Insert into a list kept in descending order of `f`-score (stable:
equal scores keep the earlier element first). -/
def insertDesc {α : Type} (f : α → ℚ) (a : α) : List α → List α
  | [] => [a]
  | b :: t => if f b < f a then a :: b :: t else b :: insertDesc f a t

/-- Stable insertion sort, descending by `f`-score. -/
def sortDesc {α : Type} (f : α → ℚ) : List α → List α
  | [] => []
  | a :: t => insertDesc f a (sortDesc f t)

/-- Modelled from the spec: keyword (full-text) search of
`rag/policy_search.py` (not in src/): score the filtered store with the
keyword relevance contract (`none` means the chunk does not match), keep the
top `k` by score. -/
def keyword_search (kwRel : String → Chunk → Option ℚ) (store : List Chunk)
    (q : String) (f : Filters) (k : Nat) : List Scored :=
  (sortDesc Scored.score
    ((store.filter (matches_filters f)).filterMap
      (fun c => (kwRel q c).map (fun s => ⟨c, s⟩)))).take k

/-- Modelled from the spec: vector (nearest-neighbor) search of
`rag/policy_search.py` (not in src/): cosine-similarity score every chunk of
the filtered store, keep the top `k`. -/
def vector_search (vecRel : String → Chunk → ℚ) (store : List Chunk)
    (q : String) (f : Filters) (k : Nat) : List Scored :=
  (sortDesc Scored.score
    ((store.filter (matches_filters f)).map (fun c => (⟨c, vecRel q c⟩ : Scored)))).take k

/-- Modelled from the spec: the merge step of `hybrid_search` in
`rag/policy_search.py` (not in src/): union by `(doc_name, chunk_index)`;
a key found by both modes keeps the higher score and provenance `both`. -/
def merge_candidates (kw vec : List Scored) : List Candidate :=
  kw.map (fun c =>
    match vec.find? (fun v => scoredKey v == scoredKey c) with
    | some v => ⟨c.chunk, max c.score v.score, .both⟩
    | none => ⟨c.chunk, c.score, .keyword⟩)
  ++ (vec.filter (fun v => kw.all (fun c => !(scoredKey c == scoredKey v)))).map
      (fun v => ⟨v.chunk, v.score, .vector⟩)

/-- Modelled from the spec: `hybrid_search` of `rag/policy_search.py` (not in
src/): run both filtered searches and merge the candidate lists. -/
def hybrid_search (kwRel : String → Chunk → Option ℚ) (vecRel : String → Chunk → ℚ)
    (store : List Chunk) (q : String) (f : Filters) (k : Nat) : List Candidate :=
  merge_candidates (keyword_search kwRel store q f k) (vector_search vecRel store q f k)

/-- Modelled from the spec: rescoring every candidate through the
cross-encoder contract of `rag/rerank.py` (not in src/); `none` when the
contract fails on any candidate. -/
def rescore_all (scorer : String → String → Option ℚ) (q : String) :
    List Candidate → Option (List Candidate)
  | [] => some []
  | c :: rest =>
    match scorer q c.chunk.content, rescore_all scorer q rest with
    | some s, some rs => some (⟨c.chunk, s, c.provenance⟩ :: rs)
    | _, _ => none

/-- Modelled from the spec: `rerank` of `rag/rerank.py` (not in src/):
replace retrieval scores with cross-encoder scores, sort descending, keep
`final_k`; on scoring-contract failure fall back to the pre-existing
retrieval scores and record the fallback in the second component. -/
def rerank (scorer : String → String → Option ℚ) (q : String)
    (cands : List Candidate) (final_k : Nat) : List Candidate × Bool :=
  match rescore_all scorer q cands with
  | some rs => ((sortDesc Candidate.score rs).take final_k, false)
  | none => ((sortDesc Candidate.score cands).take final_k, true)

/-- Drop the trailing (possibly split) word: remove characters from the end
up to and including nothing past the last space. -/
def dropLastWord (l : List Char) : List Char :=
  (l.reverse.dropWhile (fun c => !(c == ' '))).reverse

/-- Modelled from the spec: snippet truncation of `rag/answer_gen.py` (not in
src/): at most `n` characters, cutting back to a word boundary when the
content is longer. -/
def truncate_snippet (n : Nat) (s : String) : String :=
  if s.data.length ≤ n then s else String.mk (dropLastWord (s.data.take n))

/-- An emitted source citation, as in the `Source` response model
(src/frontend/types/api.ts and the README response schema). -/
structure Source where
  doc_name : String
  org : String
  page : Nat
  text_snippet : String
  score : ℚ
deriving DecidableEq, Repr

/-- Modelled from the spec: building one emitted source from a ranked
candidate (`rag/answer_gen.py`, not in src/). -/
def mk_source (c : Candidate) : Source :=
  ⟨c.chunk.doc_name, c.chunk.org, c.chunk.page, truncate_snippet 350 c.chunk.content, c.score⟩

/-- The answer status enumeration of the `AnswerResponse` schema. -/
inductive AnswerStatus
  | ok
  | needs_clarification
  | needs_sql
  | no_results
deriving DecidableEq, Repr

/-- The structured answer result of the `/policy/answer` operation, following
the `AnswerResponse` schema in src/frontend/types/api.ts and the README. -/
structure AnswerResult where
  status : AnswerStatus
  query : String
  route : Route
  filters : Filters
  answer : Option String
  sources : List Source
  clarify_question : Option String
  warning : Option String
deriving DecidableEq, Repr

/-- Warning text for the SQL deferral route, as in the README example. -/
def sql_warning : String :=
  "This question needs expense/fact data (SQL), which is not connected yet."

/-- Warning text when filters leave no candidates. -/
def no_results_warning : String :=
  "No matching policy content found. Try broader filters or a different document."

/-- Warning text recording the reranker fallback. -/
def rerank_fallback_warning : String :=
  "Reranker unavailable; sources are ordered by retrieval score."

/-- Warning text when the generation contract fails. -/
def generation_failed_warning : String := "Answer generation failed."

/-- Warning text attached to a generic or empty generated answer. -/
def generic_answer_warning : String :=
  "The answer looks generic. Try rephrasing or using broader filters."

/-- Non-answer patterns for generic/empty-answer detection. -/
def genericAnswers : List String := ["i don\x27t know", "i cannot answer", "not sure"]

/-- Modelled from the spec: generic/empty-answer detection of
`rag/answer_gen.py` (not in src/). -/
def is_generic (t : String) : Bool :=
  t.data.isEmpty || genericAnswers.any (fun g => containsSub g.data (lowerChars t))

/-- Modelled from the spec: the citation header of `rag/answer_gen.py` (not
in src/): organization, document name and page. -/
def citation_header (c : Candidate) : String :=
  "[" ++ c.chunk.org ++ "] " ++ c.chunk.doc_name ++ " PG: " ++ toString c.chunk.page

/-- Modelled from the spec: the grounded context assembled from the ranked
candidates (`rag/answer_gen.py`, not in src/). -/
def grounded_context (ranked : List Candidate) : String :=
  String.intercalate "\n\n"
    (ranked.map (fun c => citation_header c ++ "\n" ++ truncate_snippet 350 c.chunk.content))

/-- Modelled from the spec: `generate_answer` of `rag/answer_gen.py` together
with the `/policy/answer` endpoint dispatch in `main.py` (neither in src/):
route the question; SQL and CLARIFY routes are terminal with empty sources;
otherwise retrieve, rerank, and invoke the generation contract, degrading
every external failure to a warning rather than an error. -/
def generate_answer (kwRel : String → Chunk → Option ℚ) (vecRel : String → Chunk → ℚ)
    (scorer : String → String → Option ℚ) (gen : String → String → Option String)
    (store : List Chunk) (q : String) (explicit : Filters)
    (candidate_k final_k : Nat) : AnswerResult :=
  let d := route_question q explicit
  match d.route with
  | .SQL_NOT_READY => ⟨.needs_sql, q, d.route, d.filters, none, [], none, some sql_warning⟩
  | .CLARIFY =>
    ⟨.needs_clarification, q, d.route, d.filters, none, [], d.clarify_question, none⟩
  | r =>
    let cands := hybrid_search kwRel vecRel store q d.filters candidate_k
    let rr := rerank scorer q cands final_k
    if rr.1.isEmpty then
      ⟨.no_results, q, r, d.filters, none, [], none, some no_results_warning⟩
    else
      let srcs := rr.1.map mk_source
      match gen q (grounded_context rr.1) with
      | none => ⟨.ok, q, r, d.filters, none, srcs, none, some generation_failed_warning⟩
      | some t =>
        ⟨.ok, q, r, d.filters, some t, srcs, none,
          if rr.2 then some rerank_fallback_warning
          else if is_generic t then some generic_answer_warning else none⟩

/-- The `ORGANIZATIONS` constant of src/frontend/types/api.ts: the org
filter values offered at the public search interface (uppercase ids). -/
def ORGANIZATIONS : List String :=
  ["ASU", "STANFORD", "YALE", "COLUMBIA", "MICHIGAN", "PRINCETON", "NYU", "RUTGERS"]

/-- ASCII uppercase of a string (kernel-reducible counterpart of
`String.toUpper` for the registry vocabulary). -/
def upperString (s : String) : String :=
  String.mk (s.data.map (fun c => if c.toNat ≥ 97 && c.toNat ≤ 122 then Char.ofNat (c.toNat - 32) else c))

/-- Concrete Yale chunk used to exercise the pipeline definitions. -/
def chunkYale : Chunk :=
  ⟨"Yale.pdf", 3, "Receipts are required for all travel expenses of 75 dollars or more.", 15,
    "Yale", PolicyType.travel⟩

/-- Concrete Stanford chunk used to exercise the pipeline definitions. -/
def chunkStanford : Chunk :=
  ⟨"stanford_travel.pdf", 0, "Business class is allowed for flights over six hours.", 5,
    "Stanford", PolicyType.travel⟩

/-- Keyword relevance contract that matches every chunk with score 1. -/
def kwRel0 : String → Chunk → Option ℚ := fun _ _ => some 1

/-- Vector similarity contract that scores every chunk 0. -/
def vecRel0 : String → Chunk → ℚ := fun _ _ => 0

/-- Cross-encoder scoring contract that always fails. -/
def scorerFail : String → String → Option ℚ := fun _ _ => none

/-- Generation contract returning a fixed answer. -/
def gen0 : String → String → Option String :=
  fun _ _ => some "According to the policy, receipts are required."

theorem mem_insertDesc {α : Type} (f : α → ℚ) (a x : α) (l : List α) :
    x ∈ insertDesc f a l ↔ x = a ∨ x ∈ l := by
  induction l with
  | nil => simp [insertDesc]
  | cons b t ih =>
    simp only [insertDesc]
    split
    · simp [List.mem_cons]
    · simp only [List.mem_cons, ih]
      tauto

theorem insertDesc_perm {α : Type} (f : α → ℚ) (a : α) (l : List α) :
    List.Perm (insertDesc f a l) (a :: l) := by
  induction l with
  | nil => exact List.Perm.refl _
  | cons b t ih =>
    simp only [insertDesc]
    split
    · exact List.Perm.refl _
    · exact (ih.cons b).trans (List.Perm.swap a b t)

theorem sortDesc_perm {α : Type} (f : α → ℚ) (l : List α) : List.Perm (sortDesc f l) l := by
  induction l with
  | nil => exact List.Perm.refl _
  | cons a t ih => exact (insertDesc_perm f a (sortDesc f t)).trans (ih.cons a)

theorem mem_sortDesc {α : Type} (f : α → ℚ) (x : α) (l : List α) :
    x ∈ sortDesc f l ↔ x ∈ l :=
  (sortDesc_perm f l).mem_iff

theorem length_sortDesc {α : Type} (f : α → ℚ) (l : List α) :
    (sortDesc f l).length = l.length :=
  (sortDesc_perm f l).length_eq

theorem pairwise_insertDesc {α : Type} (f : α → ℚ) (a : α) (l : List α)
    (h : l.Pairwise (fun x y => f y ≤ f x)) :
    (insertDesc f a l).Pairwise (fun x y => f y ≤ f x) := by
  induction l with
  | nil => simp [insertDesc]
  | cons b t ih =>
    rcases List.pairwise_cons.mp h with ⟨hb, ht⟩
    simp only [insertDesc]
    split
    · rename_i hlt
      refine List.pairwise_cons.mpr ⟨?_, h⟩
      intro y hy
      rcases List.mem_cons.mp hy with rfl | hyt
      · exact le_of_lt hlt
      · exact (hb y hyt).trans (le_of_lt hlt)
    · rename_i hnlt
      refine List.pairwise_cons.mpr ⟨?_, ih ht⟩
      intro y hy
      rcases (mem_insertDesc f a y t).mp hy with rfl | hyt
      · exact not_lt.mp hnlt
      · exact hb y hyt

theorem sortDesc_pairwise {α : Type} (f : α → ℚ) (l : List α) :
    (sortDesc f l).Pairwise (fun x y => f y ≤ f x) := by
  induction l with
  | nil => simp [sortDesc]
  | cons a t ih => exact pairwise_insertDesc f a (sortDesc f t) ih

theorem take_sortDesc_pairwise {α : Type} (f : α → ℚ) (l : List α) (k : Nat) :
    ((sortDesc f l).take k).Pairwise (fun x y => f y ≤ f x) :=
  (sortDesc_pairwise f l).sublist (List.take_sublist k _)

theorem rescore_all_mem (scorer : String → String → Option ℚ) (q : String)
    (cands rs : List Candidate) (h : rescore_all scorer q cands = some rs) :
    ∀ c ∈ rs, ∃ c0 ∈ cands, c.chunk = c0.chunk := by
  induction cands generalizing rs with
  | nil =>
    simp only [rescore_all, Option.some.injEq] at h
    subst h
    intro c hc
    exact absurd hc (List.not_mem_nil c)
  | cons c0 rest ih =>
    simp only [rescore_all] at h
    rcases hs : scorer q c0.chunk.content with _ | s <;> rw [hs] at h
    · exact absurd h (by simp)
    · rcases hr : rescore_all scorer q rest with _ | rs0 <;> rw [hr] at h
      · exact absurd h (by simp)
      · simp only [Option.some.injEq] at h
        subst h
        intro c hc
        rcases List.mem_cons.mp hc with rfl | hmem
        · exact ⟨c0, List.mem_cons_self c0 rest, rfl⟩
        · rcases ih rs0 hr c hmem with ⟨c1, hc1, he⟩
          exact ⟨c1, List.mem_cons_of_mem c0 hc1, he⟩

theorem rescore_all_none_of_fail (scorer : String → String → Option ℚ) (q : String)
    (hfail : ∀ a b, scorer a b = none) (c : Candidate) (rest : List Candidate) :
    rescore_all scorer q (c :: rest) = none := by
  simp [rescore_all, hfail]

theorem mem_rerank (scorer : String → String → Option ℚ) (q : String)
    (cands : List Candidate) (k : Nat) :
    ∀ c ∈ (rerank scorer q cands k).1, ∃ c0 ∈ cands, c.chunk = c0.chunk := by
  intro c hc
  unfold rerank at hc
  rcases hr : rescore_all scorer q cands with _ | rs <;> rw [hr] at hc
  · simp only at hc
    exact ⟨c, (mem_sortDesc _ c cands).mp (List.mem_of_mem_take hc), rfl⟩
  · simp only at hc
    exact rescore_all_mem scorer q cands rs hr c
      ((mem_sortDesc _ c rs).mp (List.mem_of_mem_take hc))

theorem rerank_sorted (scorer : String → String → Option ℚ) (q : String)
    (cands : List Candidate) (k : Nat) :
    (rerank scorer q cands k).1.Pairwise (fun a b => b.score ≤ a.score) := by
  unfold rerank
  rcases hr : rescore_all scorer q cands with _ | rs
  · exact take_sortDesc_pairwise Candidate.score cands k
  · exact take_sortDesc_pairwise Candidate.score rs k

theorem mem_keyword_search (kwRel : String → Chunk → Option ℚ) (store : List Chunk)
    (q : String) (f : Filters) (k : Nat) :
    ∀ s ∈ keyword_search kwRel store q f k,
      s.chunk ∈ store ∧ matches_filters f s.chunk = true := by
  intro s hs
  unfold keyword_search at hs
  have hmem := (mem_sortDesc _ s _).mp (List.mem_of_mem_take hs)
  rcases List.mem_filterMap.mp hmem with ⟨c, hc, hmap⟩
  rcases Option.map_eq_some'.mp hmap with ⟨sc, _, heq⟩
  have hchunk : s.chunk = c := by rw [← heq]
  rw [hchunk]
  exact ⟨List.mem_of_mem_filter hc, List.of_mem_filter hc⟩

theorem mem_vector_search (vecRel : String → Chunk → ℚ) (store : List Chunk)
    (q : String) (f : Filters) (k : Nat) :
    ∀ s ∈ vector_search vecRel store q f k,
      s.chunk ∈ store ∧ matches_filters f s.chunk = true := by
  intro s hs
  unfold vector_search at hs
  have hmem := (mem_sortDesc _ s _).mp (List.mem_of_mem_take hs)
  rcases List.mem_map.mp hmem with ⟨c, hc, hmap⟩
  have hchunk : s.chunk = c := by rw [← hmap]
  rw [hchunk]
  exact ⟨List.mem_of_mem_filter hc, List.of_mem_filter hc⟩

theorem mem_merge_candidates (kw vec : List Scored) :
    ∀ c ∈ merge_candidates kw vec,
      (∃ s ∈ kw, c.chunk = s.chunk) ∨ (∃ s ∈ vec, c.chunk = s.chunk) := by
  intro c hc
  rcases List.mem_append.mp hc with hl | hr
  · rcases List.mem_map.mp hl with ⟨s, hs, hmap⟩
    left
    refine ⟨s, hs, ?_⟩
    rcases hf : vec.find? (fun v => scoredKey v == scoredKey s) with _ | v <;>
      rw [hf] at hmap <;> simp only at hmap <;> rw [← hmap]
  · rcases List.mem_map.mp hr with ⟨v, hv, hmap⟩
    right
    exact ⟨v, List.mem_of_mem_filter hv, by rw [← hmap]⟩

theorem mem_hybrid_search (kwRel : String → Chunk → Option ℚ)
    (vecRel : String → Chunk → ℚ) (store : List Chunk) (q : String) (f : Filters) (k : Nat) :
    ∀ c ∈ hybrid_search kwRel vecRel store q f k,
      c.chunk ∈ store ∧ matches_filters f c.chunk = true := by
  intro c hc
  rcases mem_merge_candidates _ _ c hc with ⟨s, hs, he⟩ | ⟨s, hs, he⟩
  · rw [he]
    exact mem_keyword_search kwRel store q f k s hs
  · rw [he]
    exact mem_vector_search vecRel store q f k s hs

theorem org_of_matches (f : Filters) (c : Chunk) (o : String)
    (h : matches_filters f c = true) (ho : f.org = some o) : c.org = o := by
  unfold matches_filters at h
  rw [ho] at h
  simp only [Bool.and_eq_true, beq_iff_eq] at h
  exact h.1.1

theorem mem_generate_answer_sources (kwRel : String → Chunk → Option ℚ)
    (vecRel : String → Chunk → ℚ) (scorer : String → String → Option ℚ)
    (gen : String → String → Option String) (store : List Chunk) (q : String)
    (explicit : Filters) (ck fk : Nat) :
    ∀ src ∈ (generate_answer kwRel vecRel scorer gen store q explicit ck fk).sources,
      ∃ c ∈ (rerank scorer q
          (hybrid_search kwRel vecRel store q (route_question q explicit).filters ck) fk).1,
        src = mk_source c := by
  intro src hsrc
  cases hroute : (route_question q explicit).route
  all_goals simp only [generate_answer, hroute] at hsrc
  case SQL_NOT_READY => exact absurd hsrc (List.not_mem_nil src)
  case CLARIFY => exact absurd hsrc (List.not_mem_nil src)
  all_goals
    split at hsrc
    · exact absurd hsrc (List.not_mem_nil src)
    · split at hsrc <;>
        · simp only at hsrc
          rcases List.mem_map.mp hsrc with ⟨c, hc, he⟩
          exact ⟨c, hc, he.symm⟩

theorem route_question_sql (q : String) (explicit : Filters) (h : has_sql_intent q = true) :
    route_question q explicit = ⟨.SQL_NOT_READY, explicit, none⟩ := by
  simp [route_question, h]

theorem route_question_multi (q : String) (explicit : Filters)
    (hsql : has_sql_intent q = false) (h2 : 2 ≤ (extract_orgs q).length) :
    route_question q explicit =
      ⟨.RAG_ALL,
        ⟨none, explicit.policy_type.orElse (fun _ => infer_policy_type q), explicit.doc_name⟩,
        none⟩ := by
  simp [route_question, hsql, h2]

theorem route_question_single (q : String) (explicit : Filters) (o : String)
    (hsql : has_sql_intent q = false) (hcmp : implies_comparison q = false)
    (horg : explicit.org = none) (hext : extract_orgs q = [o]) :
    route_question q explicit =
      ⟨.RAG_FILTERED,
        ⟨some o, explicit.policy_type.orElse (fun _ => infer_policy_type q), explicit.doc_name⟩,
        none⟩ := by
  simp [route_question, hsql, hcmp, horg, hext]

theorem route_question_clarify (q : String) (explicit : Filters)
    (hsql : has_sql_intent q = false) (hcmp : implies_comparison q = false)
    (horg : explicit.org = none) (hext : extract_orgs q = [])
    (hsingle : expects_single_answer q = true) :
    route_question q explicit =
      ⟨.CLARIFY,
        ⟨none, explicit.policy_type.orElse (fun _ => infer_policy_type q), explicit.doc_name⟩,
        some clarify_text⟩ := by
  simp [route_question, hsql, hcmp, horg, hext, hsingle]

theorem extract_orgs_nodup (q : String) : (extract_orgs q).Nodup := by
  have hreg : (orgAliases.map Prod.fst).Nodup := by decide
  exact hreg.sublist ((List.filter_sublist orgAliases).map Prod.fst)

theorem extract_orgs_subset (q : String) : ∀ o ∈ extract_orgs q, o ∈ supported_orgs := by
  intro o ho
  rcases List.mem_map.mp ho with ⟨e, he, rfl⟩
  exact List.mem_map_of_mem Prod.fst (List.mem_of_mem_filter he)

theorem rerank_of_fail (scorer : String → String → Option ℚ) (q : String)
    (cands : List Candidate) (k : Nat) (hfail : ∀ a b, scorer a b = none) :
    (rerank scorer q cands k).1 = (sortDesc Candidate.score cands).take k := by
  cases cands with
  | nil => rfl
  | cons c rest => rw [rerank, rescore_all_none_of_fail scorer q hfail c rest]

theorem rerank_nil (scorer : String → String → Option ℚ) (q : String) (k : Nat) :
    rerank scorer q [] k = ([], false) := by
  simp [rerank, rescore_all, sortDesc]

theorem rerank_flag_of_fail (scorer : String → String → Option ℚ) (q : String)
    (cands : List Candidate) (k : Nat) (hfail : ∀ a b, scorer a b = none)
    (hne : cands ≠ []) : (rerank scorer q cands k).2 = true := by
  rcases cands with _ | ⟨c, rest⟩
  · exact absurd rfl hne
  · rw [rerank, rescore_all_none_of_fail scorer q hfail c rest]

theorem dropLastWord_length (l : List Char) : (dropLastWord l).length ≤ l.length := by
  unfold dropLastWord
  rw [List.length_reverse]
  calc (l.reverse.dropWhile _).length
      ≤ l.reverse.length := (List.dropWhile_sublist _).length_le
    _ = l.length := List.length_reverse l

theorem truncate_snippet_length (n : Nat) (s : String) :
    (truncate_snippet n s).length ≤ n := by
  unfold truncate_snippet
  split
  · assumption
  · show (String.mk (dropLastWord (s.data.take n))).length ≤ n
    calc (String.mk (dropLastWord (s.data.take n))).length
        = (dropLastWord (s.data.take n)).length := rfl
      _ ≤ (s.data.take n).length := dropLastWord_length _
      _ ≤ n := by
          rw [List.length_take]
          exact min_le_left n _

theorem dropWhile_head_or_nil (p : Char → Bool) (l : List Char) :
    l.dropWhile p = [] ∨ ∃ a t, l.dropWhile p = a :: t ∧ p a = false := by
  induction l with
  | nil => left; rfl
  | cons a t ih =>
    by_cases h : p a
    · rw [List.dropWhile_cons_of_pos h]
      exact ih
    · right
      exact ⟨a, t, List.dropWhile_cons_of_neg h, by simpa using h⟩

theorem truncate_snippet_boundary (n : Nat) (s : String) :
    truncate_snippet n s = s ∨ (truncate_snippet n s).data = [] ∨
      (truncate_snippet n s).data.getLast? = some ' ' := by
  unfold truncate_snippet
  split
  · left; rfl
  · right
    rcases dropWhile_head_or_nil (fun c => !(c == ' ')) (s.data.take n).reverse with
      h | ⟨a, t, hat, hpa⟩
    · left
      simp [dropLastWord, h]
    · right
      have ha : a = ' ' := by simpa using hpa
      show (dropLastWord (s.data.take n)).getLast? = some ' '
      unfold dropLastWord
      rw [hat, List.getLast?_reverse, List.head?_cons, ha]

theorem generate_answer_of_sql (kwRel : String → Chunk → Option ℚ)
    (vecRel : String → Chunk → ℚ) (scorer : String → String → Option ℚ)
    (gen : String → String → Option String) (store : List Chunk) (q : String)
    (explicit : Filters) (ck fk : Nat) (h : has_sql_intent q = true) :
    generate_answer kwRel vecRel scorer gen store q explicit ck fk =
      ⟨.needs_sql, q, .SQL_NOT_READY, explicit, none, [], none, some sql_warning⟩ := by
  simp [generate_answer, route_question_sql q explicit h]

theorem generate_answer_status_ok_or_sources_nil (kwRel : String → Chunk → Option ℚ)
    (vecRel : String → Chunk → ℚ) (scorer : String → String → Option ℚ)
    (gen : String → String → Option String) (store : List Chunk) (q : String)
    (explicit : Filters) (ck fk : Nat) :
    (generate_answer kwRel vecRel scorer gen store q explicit ck fk).status = AnswerStatus.ok ∨
    (generate_answer kwRel vecRel scorer gen store q explicit ck fk).sources = [] := by
  cases hd : route_question q explicit with
  | mk r fs cq =>
    cases r <;> simp only [generate_answer, hd] <;>
      first
        | (right; trivial)
        | (split <;>
            first
              | (right; trivial)
              | (split <;> (left; trivial)))

theorem generate_answer_sources_sorted (kwRel : String → Chunk → Option ℚ)
    (vecRel : String → Chunk → ℚ) (scorer : String → String → Option ℚ)
    (gen : String → String → Option String) (store : List Chunk) (q : String)
    (explicit : Filters) (ck fk : Nat) :
    (generate_answer kwRel vecRel scorer gen store q explicit ck fk).sources.Pairwise
      (fun a b => b.score ≤ a.score) := by
  cases hd : route_question q explicit with
  | mk r fs cq =>
    cases r <;> simp only [generate_answer, hd]
    · exact List.Pairwise.nil
    · exact List.Pairwise.nil
    all_goals
      split
      · exact List.Pairwise.nil
      · split <;>
          exact (rerank_sorted scorer q _ fk).map mk_source (fun a b hab => hab)

theorem generate_answer_sources_org (kwRel : String → Chunk → Option ℚ)
    (vecRel : String → Chunk → ℚ) (scorer : String → String → Option ℚ)
    (gen : String → String → Option String) (store : List Chunk) (q : String)
    (explicit : Filters) (ck fk : Nat) (o : String)
    (ho : (route_question q explicit).filters.org = some o) :
    ∀ src ∈ (generate_answer kwRel vecRel scorer gen store q explicit ck fk).sources,
      src.org = o := by
  intro src hsrc
  rcases mem_generate_answer_sources kwRel vecRel scorer gen store q explicit ck fk src hsrc
    with ⟨c, hc, he⟩
  rcases mem_rerank scorer q _ fk c hc with ⟨c0, hc0, hchunk⟩
  have hm := mem_hybrid_search kwRel vecRel store q (route_question q explicit).filters ck c0 hc0
  have horg : c0.chunk.org = o := org_of_matches _ _ _ hm.2 ho
  rw [he]
  show c.chunk.org = o
  rw [hchunk]
  exact horg

theorem generate_answer_warning_of_rerank_failure (kwRel : String → Chunk → Option ℚ)
    (vecRel : String → Chunk → ℚ) (scorer : String → String → Option ℚ)
    (gen : String → String → Option String) (store : List Chunk) (q : String)
    (explicit : Filters) (ck fk : Nat)
    (hfail : ∀ a b, scorer a b = none)
    (hroute : (route_question q explicit).route = Route.RAG_FILTERED ∨
              (route_question q explicit).route = Route.RAG_ALL) :
    (generate_answer kwRel vecRel scorer gen store q explicit ck fk).warning ≠ none := by
  cases hd : route_question q explicit with
  | mk r fs cq =>
    rw [hd] at hroute
    simp only at hroute
    rcases hroute with rfl | rfl <;>
      · simp only [generate_answer, hd]
        split
        · simp
        · rename_i hne
          have hcands : hybrid_search kwRel vecRel store q fs ck ≠ [] := by
            intro hnil
            rw [hnil, rerank_nil] at hne
            simp at hne
          have hflag := rerank_flag_of_fail scorer q
            (hybrid_search kwRel vecRel store q fs ck) fk hfail hcands
          split
          · simp
          · rw [hflag]
            simp

theorem generate_answer_route_eq (kwRel : String → Chunk → Option ℚ)
    (vecRel : String → Chunk → ℚ) (scorer : String → String → Option ℚ)
    (gen : String → String → Option String) (store : List Chunk) (q : String)
    (explicit : Filters) (ck fk : Nat) :
    (generate_answer kwRel vecRel scorer gen store q explicit ck fk).route =
      (route_question q explicit).route := by
  cases hd : route_question q explicit with
  | mk r fs cq =>
    cases r <;> simp only [generate_answer, hd] <;>
      first
        | rfl
        | (split <;> first | rfl | (split <;> rfl))

/-- C1 counterexample: the query "Report my expense status for ASU vs Yale"
contains two distinct organization aliases (ASU and Yale), yet the router
does not return RAG_ALL: the SQL-intent rule fires first and returns
SQL_NOT_READY, so the claim as stated is false. -/
theorem c1_counterexample :
    2 ≤ (extract_orgs "Report my expense status for ASU vs Yale").length ∧
    (extract_orgs "Report my expense status for ASU vs Yale").Nodup ∧
    (route_question "Report my expense status for ASU vs Yale" noFilters).route =
      Route.SQL_NOT_READY ∧
    (route_question "Report my expense status for ASU vs Yale" noFilters).route ≠
      Route.RAG_ALL := by
  decide

/-- C1 (amended): for every query that matches no SQL-intent signal and whose
text contains at least two distinct organization aliases (the extracted
canonical ids are pairwise distinct by construction), the router returns
RAG_ALL with filters.org cleared, regardless of any explicit org filter. -/
theorem router_multi_org_rag_all (q : String) (explicit : Filters)
    (hsql : has_sql_intent q = false) (h2 : 2 ≤ (extract_orgs q).length) :
    (extract_orgs q).Nodup ∧
    (route_question q explicit).route = Route.RAG_ALL ∧
    (route_question q explicit).filters.org = none := by
  rw [route_question_multi q explicit hsql h2]
  exact ⟨extract_orgs_nodup q, rfl, rfl⟩

/-- C1 witness: the two-organization comparison query routes to RAG_ALL with
org cleared even though an explicit Stanford org filter is supplied. -/
theorem router_multi_org_rag_all_witness :
    (has_sql_intent "Compare ASU vs Yale meal per diem" = false ∧
     2 ≤ (extract_orgs "Compare ASU vs Yale meal per diem").length) ∧
    ((extract_orgs "Compare ASU vs Yale meal per diem").Nodup ∧
     (route_question "Compare ASU vs Yale meal per diem"
        ⟨some "Stanford", none, none⟩).route = Route.RAG_ALL ∧
     (route_question "Compare ASU vs Yale meal per diem"
        ⟨some "Stanford", none, none⟩).filters.org = none) :=
  ⟨⟨by decide, by decide⟩,
   router_multi_org_rag_all "Compare ASU vs Yale meal per diem"
     ⟨some "Stanford", none, none⟩ (by decide) (by decide)⟩

/-- C2 counterexample: the query "Compare Stanford vs Harvard travel
policies" contains exactly one recognized organization alias (Stanford) and
no explicit org filter, yet the router returns RAG_ALL (the comparison rule
precedes the single-organization rule), so the claim as stated is false. -/
theorem c2_counterexample :
    extract_orgs "Compare Stanford vs Harvard travel policies" = ["Stanford"] ∧
    noFilters.org = none ∧
    (route_question "Compare Stanford vs Harvard travel policies" noFilters).route =
      Route.RAG_ALL ∧
    (route_question "Compare Stanford vs Harvard travel policies" noFilters).route ≠
      Route.RAG_FILTERED := by
  decide

/-- C2 (amended): for every query containing exactly one organization alias,
with no explicit org filter, that matches no earlier routing rule (no
SQL-intent signal and no comparison phrasing), the router returns
RAG_FILTERED with filters.org equal to the canonical id of that organization; in
particular the Stanford travel-policy query with no explicit
filters routes to RAG_FILTERED with filters.org = Stanford, and every
emitted source of the answer operation has org Stanford. -/
theorem router_single_org_filtered (q : String) (explicit : Filters) (o : String)
    (kwRel : String → Chunk → Option ℚ) (vecRel : String → Chunk → ℚ)
    (scorer : String → String → Option ℚ) (gen : String → String → Option String)
    (store : List Chunk) (ck fk : Nat)
    (hsql : has_sql_intent q = false) (hcmp : implies_comparison q = false)
    (horg : explicit.org = none) (hext : extract_orgs q = [o]) :
    ((route_question q explicit).route = Route.RAG_FILTERED ∧
     (route_question q explicit).filters.org = some o) ∧
    (route_question "What is Stanford\x27s travel policy?" noFilters).route =
      Route.RAG_FILTERED ∧
    (route_question "What is Stanford\x27s travel policy?" noFilters).filters.org =
      some "Stanford" ∧
    ∀ src ∈ (generate_answer kwRel vecRel scorer gen store
        "What is Stanford\x27s travel policy?" noFilters ck fk).sources,
      src.org = "Stanford" := by
  refine ⟨?_, by decide, by decide, ?_⟩
  · rw [route_question_single q explicit o hsql hcmp horg hext]
    exact ⟨rfl, rfl⟩
  · exact generate_answer_sources_org kwRel vecRel scorer gen store
      "What is Stanford\x27s travel policy?" noFilters ck fk "Stanford" (by decide)

/-- C2 witness: the Stanford travel-policy query satisfies every hypothesis
and the conclusion holds at concrete backends and a one-chunk store. -/
theorem router_single_org_filtered_witness :
    (has_sql_intent "What is Stanford\x27s travel policy?" = false ∧
     implies_comparison "What is Stanford\x27s travel policy?" = false ∧
     noFilters.org = none ∧
     extract_orgs "What is Stanford\x27s travel policy?" = ["Stanford"]) ∧
    (((route_question "What is Stanford\x27s travel policy?" noFilters).route =
        Route.RAG_FILTERED ∧
      (route_question "What is Stanford\x27s travel policy?" noFilters).filters.org =
        some "Stanford") ∧
     (route_question "What is Stanford\x27s travel policy?" noFilters).route =
       Route.RAG_FILTERED ∧
     (route_question "What is Stanford\x27s travel policy?" noFilters).filters.org =
       some "Stanford" ∧
     ∀ src ∈ (generate_answer kwRel0 vecRel0 scorerFail gen0 [chunkStanford]
         "What is Stanford\x27s travel policy?" noFilters 30 5).sources,
       src.org = "Stanford") :=
  ⟨⟨by decide, by decide, by decide, by decide⟩,
   router_single_org_filtered "What is Stanford\x27s travel policy?" noFilters "Stanford"
     kwRel0 vecRel0 scorerFail gen0 [chunkStanford] 30 5
     (by decide) (by decide) (by decide) (by decide)⟩

/-- C3: for every query matching an SQL-intent signal, the router returns
SQL_NOT_READY with the explicit filters unchanged and no clarify question;
the answer operation reports needs_sql with empty sources and no answer; and
the result is identical for any two choices of retrieval, scoring and
generation backends, showing that no retrieval or generation is invoked. -/
theorem router_sql_first (q : String) (explicit : Filters)
    (kwRel kwRel2 : String → Chunk → Option ℚ) (vecRel vecRel2 : String → Chunk → ℚ)
    (scorer scorer2 : String → String → Option ℚ)
    (gen gen2 : String → String → Option String)
    (store store2 : List Chunk) (ck fk ck2 fk2 : Nat)
    (hsql : has_sql_intent q = true) :
    route_question q explicit = ⟨Route.SQL_NOT_READY, explicit, none⟩ ∧
    (generate_answer kwRel vecRel scorer gen store q explicit ck fk).status =
      AnswerStatus.needs_sql ∧
    (generate_answer kwRel vecRel scorer gen store q explicit ck fk).sources = [] ∧
    (generate_answer kwRel vecRel scorer gen store q explicit ck fk).answer = none ∧
    generate_answer kwRel vecRel scorer gen store q explicit ck fk =
      generate_answer kwRel2 vecRel2 scorer2 gen2 store2 q explicit ck2 fk2 := by
  have h1 := generate_answer_of_sql kwRel vecRel scorer gen store q explicit ck fk hsql
  have h2 := generate_answer_of_sql kwRel2 vecRel2 scorer2 gen2 store2 q explicit ck2 fk2 hsql
  exact ⟨route_question_sql q explicit hsql, by rw [h1], by rw [h1], by rw [h1],
    by rw [h1, h2]⟩

/-- C3 witness: the end-to-end scenario-4 query has SQL intent, and the
conclusion holds at two different concrete backend instantiations. -/
theorem router_sql_first_witness :
    has_sql_intent "What is my expense status for report 123?" = true ∧
    (route_question "What is my expense status for report 123?" noFilters =
      ⟨Route.SQL_NOT_READY, noFilters, none⟩ ∧
     (generate_answer kwRel0 vecRel0 scorerFail gen0 [chunkYale]
        "What is my expense status for report 123?" noFilters 30 5).status =
       AnswerStatus.needs_sql ∧
     (generate_answer kwRel0 vecRel0 scorerFail gen0 [chunkYale]
        "What is my expense status for report 123?" noFilters 30 5).sources = [] ∧
     (generate_answer kwRel0 vecRel0 scorerFail gen0 [chunkYale]
        "What is my expense status for report 123?" noFilters 30 5).answer = none ∧
     generate_answer kwRel0 vecRel0 scorerFail gen0 [chunkYale]
        "What is my expense status for report 123?" noFilters 30 5 =
       generate_answer (fun _ _ => none) vecRel0 (fun _ _ => some 1) (fun _ _ => none) []
        "What is my expense status for report 123?" noFilters 10 3) :=
  ⟨by decide,
   router_sql_first "What is my expense status for report 123?" noFilters
     kwRel0 (fun _ _ => none) vecRel0 vecRel0 scorerFail (fun _ _ => some 1)
     gen0 (fun _ _ => none) [chunkYale] [] 30 5 10 3 (by decide)⟩

/-- C4 counterexample: the query "Can I check my expense status?" has
single-answer phrasing, zero extracted organizations and no explicit org,
yet the router does not return CLARIFY: the SQL-intent rule fires first, the
clarify question is absent, and the answer operation reports needs_sql, so
the claim as stated is false. -/
theorem c4_counterexample :
    expects_single_answer "Can I check my expense status?" = true ∧
    extract_orgs "Can I check my expense status?" = [] ∧
    noFilters.org = none ∧
    (route_question "Can I check my expense status?" noFilters).route ≠ Route.CLARIFY ∧
    (route_question "Can I check my expense status?" noFilters).clarify_question = none ∧
    (generate_answer kwRel0 vecRel0 scorerFail gen0 []
      "Can I check my expense status?" noFilters 30 5).status = AnswerStatus.needs_sql := by
  decide

/-- C4 (amended): for every query with zero extracted organizations, no
explicit org filter, single-universal-answer phrasing, and matching no
earlier routing rule (no SQL-intent signal and no comparison phrasing), the
router returns CLARIFY with a non-null clarify question that lists every
supported organization, and the answer operation surfaces this as
needs_clarification. -/
theorem router_clarify_ambiguous (q : String) (explicit : Filters)
    (kwRel : String → Chunk → Option ℚ) (vecRel : String → Chunk → ℚ)
    (scorer : String → String → Option ℚ) (gen : String → String → Option String)
    (store : List Chunk) (ck fk : Nat)
    (hsql : has_sql_intent q = false) (hcmp : implies_comparison q = false)
    (horg : explicit.org = none) (hext : extract_orgs q = [])
    (hsingle : expects_single_answer q = true) :
    (route_question q explicit).route = Route.CLARIFY ∧
    (route_question q explicit).clarify_question = some clarify_text ∧
    (∀ o ∈ supported_orgs, containsSub o.data clarify_text.data = true) ∧
    (generate_answer kwRel vecRel scorer gen store q explicit ck fk).status =
      AnswerStatus.needs_clarification ∧
    (generate_answer kwRel vecRel scorer gen store q explicit ck fk).clarify_question =
      some clarify_text := by
  have hd := route_question_clarify q explicit hsql hcmp horg hext hsingle
  refine ⟨by rw [hd], by rw [hd], by decide, ?_, ?_⟩ <;> simp [generate_answer, hd]

/-- C4 witness: the end-to-end scenario-2 query "Is business class allowed?"
satisfies every hypothesis, and the conclusion holds at concrete backends. -/
theorem router_clarify_ambiguous_witness :
    (has_sql_intent "Is business class allowed?" = false ∧
     implies_comparison "Is business class allowed?" = false ∧
     noFilters.org = none ∧
     extract_orgs "Is business class allowed?" = [] ∧
     expects_single_answer "Is business class allowed?" = true) ∧
    ((route_question "Is business class allowed?" noFilters).route = Route.CLARIFY ∧
     (route_question "Is business class allowed?" noFilters).clarify_question =
       some clarify_text ∧
     (∀ o ∈ supported_orgs, containsSub o.data clarify_text.data = true) ∧
     (generate_answer kwRel0 vecRel0 scorerFail gen0 [chunkYale]
        "Is business class allowed?" noFilters 30 5).status =
       AnswerStatus.needs_clarification ∧
     (generate_answer kwRel0 vecRel0 scorerFail gen0 [chunkYale]
        "Is business class allowed?" noFilters 30 5).clarify_question =
       some clarify_text) :=
  ⟨⟨by decide, by decide, by decide, by decide, by decide⟩,
   router_clarify_ambiguous "Is business class allowed?" noFilters
     kwRel0 vecRel0 scorerFail gen0 [chunkYale] 30 5
     (by decide) (by decide) (by decide) (by decide) (by decide)⟩

/-- C5: merging keyword and vector result lists whose keys are unique (as
the search modes guarantee via the `policy_chunks_docname_chunkindex_uniq`
constraint) yields a candidate list in which every `(doc_name, chunk_index)`
key appears exactly once, and a chunk found by both modes appears as the
candidate carrying the maximum of the two scores with provenance `both`. -/
theorem merge_unique_key_max_both (kw vec : List Scored)
    (hkw : (kw.map scoredKey).Nodup) (hvec : (vec.map scoredKey).Nodup) :
    ((merge_candidates kw vec).map candKey).Nodup ∧
    ∀ c ∈ kw, ∀ v ∈ vec, scoredKey c = scoredKey v →
      (⟨c.chunk, max c.score v.score, Provenance.both⟩ : Candidate) ∈
        merge_candidates kw vec := by
  constructor
  · have hmap : (merge_candidates kw vec).map candKey =
        kw.map scoredKey ++
        (vec.filter (fun v => kw.all (fun c => !(scoredKey c == scoredKey v)))).map
          scoredKey := by
      unfold merge_candidates
      rw [List.map_append, List.map_map, List.map_map]
      congr 1
      · apply List.map_congr_left
        intro c _
        show candKey
            (match vec.find? (fun v => scoredKey v == scoredKey c) with
              | some v => (⟨c.chunk, max c.score v.score, Provenance.both⟩ : Candidate)
              | none => (⟨c.chunk, c.score, Provenance.keyword⟩ : Candidate)) =
          scoredKey c
        cases vec.find? (fun v => scoredKey v == scoredKey c) <;> rfl
    rw [hmap, List.nodup_append]
    refine ⟨hkw, hvec.sublist ((List.filter_sublist vec).map scoredKey), ?_⟩
    intro x hx1 hx2
    rcases List.mem_map.mp hx1 with ⟨c, hc, rfl⟩
    rcases List.mem_map.mp hx2 with ⟨v, hv, hkey⟩
    have hp := List.of_mem_filter hv
    have hall := List.all_eq_true.mp hp c hc
    simp only [Bool.not_eq_true', beq_eq_false_iff_ne, ne_eq] at hall
    exact hall hkey.symm
  · intro c hc v hv hkey
    have hsome : (vec.find? (fun v2 => scoredKey v2 == scoredKey c)).isSome := by
      rw [List.find?_isSome]
      exact ⟨v, hv, by simp [hkey]⟩
    rcases ho : vec.find? (fun v2 => scoredKey v2 == scoredKey c) with _ | v2
    · rw [ho] at hsome
      exact absurd hsome (by simp)
    · have hv2mem := List.mem_of_find?_eq_some ho
      have hpred := List.find?_some ho
      have hkey2 : scoredKey v2 = scoredKey v := by
        have heqc : scoredKey v2 = scoredKey c := by simpa using hpred
        rw [heqc, ← hkey]
      have hv2 : v2 = v := List.inj_on_of_nodup_map hvec hv2mem hv hkey2
      subst hv2
      apply List.mem_append_left
      refine List.mem_map.mpr ⟨c, hc, ?_⟩
      simp only [ho]

/-- C5 witness: a chunk returned by both modes (keyword score 3, vector
score 7) merges to a single candidate with score 7 and provenance both. -/
theorem merge_unique_key_max_both_witness :
    ((([⟨chunkYale, 3⟩] : List Scored).map scoredKey).Nodup ∧
     (([⟨chunkYale, 7⟩] : List Scored).map scoredKey).Nodup) ∧
    (((merge_candidates [⟨chunkYale, 3⟩] [⟨chunkYale, 7⟩]).map candKey).Nodup ∧
     ∀ c ∈ ([⟨chunkYale, 3⟩] : List Scored), ∀ v ∈ ([⟨chunkYale, 7⟩] : List Scored),
       scoredKey c = scoredKey v →
         (⟨c.chunk, max c.score v.score, Provenance.both⟩ : Candidate) ∈
           merge_candidates [⟨chunkYale, 3⟩] [⟨chunkYale, 7⟩]) :=
  ⟨⟨by decide, by decide⟩, merge_unique_key_max_both _ _ (by decide) (by decide)⟩

/-- C6: when the cross-encoder scoring contract always fails, rerank still
returns the first final_k candidates ordered descending by their pre-existing
retrieval score (up to final_k of them), and on a retrieval route the answer
operation carries a non-null warning instead of aborting. -/
theorem rerank_fallback_graceful (scorer : String → String → Option ℚ) (q : String)
    (cands : List Candidate) (k : Nat)
    (kwRel : String → Chunk → Option ℚ) (vecRel : String → Chunk → ℚ)
    (gen : String → String → Option String) (store : List Chunk)
    (explicit : Filters) (ck : Nat)
    (hfail : ∀ a b, scorer a b = none)
    (hroute : (route_question q explicit).route = Route.RAG_FILTERED ∨
              (route_question q explicit).route = Route.RAG_ALL) :
    (rerank scorer q cands k).1 = (sortDesc Candidate.score cands).take k ∧
    (rerank scorer q cands k).1.length = min k cands.length ∧
    (rerank scorer q cands k).1.Pairwise (fun a b => b.score ≤ a.score) ∧
    (generate_answer kwRel vecRel scorer gen store q explicit ck k).warning ≠ none := by
  refine ⟨rerank_of_fail scorer q cands k hfail, ?_, rerank_sorted scorer q cands k,
    generate_answer_warning_of_rerank_failure kwRel vecRel scorer gen store q explicit
      ck k hfail hroute⟩
  rw [rerank_of_fail scorer q cands k hfail, List.length_take, length_sortDesc]

/-- C6 witness: an always-failing scorer on a two-candidate list and a
RAG_FILTERED query still yields the fallback ranking and a warning. -/
theorem rerank_fallback_graceful_witness :
    ((∀ a b, scorerFail a b = none) ∧
     ((route_question "What is Stanford\x27s travel policy?" noFilters).route =
        Route.RAG_FILTERED ∨
      (route_question "What is Stanford\x27s travel policy?" noFilters).route =
        Route.RAG_ALL)) ∧
    ((rerank scorerFail "What is Stanford\x27s travel policy?"
        [⟨chunkStanford, 1, .keyword⟩, ⟨chunkYale, 2, .vector⟩] 5).1 =
      (sortDesc Candidate.score
        [⟨chunkStanford, 1, .keyword⟩, ⟨chunkYale, 2, .vector⟩]).take 5 ∧
     (rerank scorerFail "What is Stanford\x27s travel policy?"
        [⟨chunkStanford, 1, .keyword⟩, ⟨chunkYale, 2, .vector⟩] 5).1.length =
       min 5 ([⟨chunkStanford, 1, .keyword⟩, ⟨chunkYale, 2, .vector⟩] :
         List Candidate).length ∧
     (rerank scorerFail "What is Stanford\x27s travel policy?"
        [⟨chunkStanford, 1, .keyword⟩, ⟨chunkYale, 2, .vector⟩] 5).1.Pairwise
       (fun a b => b.score ≤ a.score) ∧
     (generate_answer kwRel0 vecRel0 scorerFail gen0 [chunkStanford]
        "What is Stanford\x27s travel policy?" noFilters 30 5).warning ≠ none) :=
  ⟨⟨fun _ _ => rfl, Or.inl (by decide)⟩,
   rerank_fallback_graceful scorerFail "What is Stanford\x27s travel policy?"
     [⟨chunkStanford, 1, .keyword⟩, ⟨chunkYale, 2, .vector⟩] 5
     kwRel0 vecRel0 gen0 [chunkStanford] noFilters 30
     (fun _ _ => rfl) (Or.inl (by decide))⟩

/-- C7: whenever the answer operation reports a status other than ok
(needs_clarification, needs_sql, or no_results), the emitted sources
sequence is empty. -/
theorem sources_empty_unless_ok (kwRel : String → Chunk → Option ℚ)
    (vecRel : String → Chunk → ℚ) (scorer : String → String → Option ℚ)
    (gen : String → String → Option String) (store : List Chunk) (q : String)
    (explicit : Filters) (ck fk : Nat)
    (h : (generate_answer kwRel vecRel scorer gen store q explicit ck fk).status ≠
      AnswerStatus.ok) :
    (generate_answer kwRel vecRel scorer gen store q explicit ck fk).sources = [] :=
  (generate_answer_status_ok_or_sources_nil kwRel vecRel scorer gen store q explicit
    ck fk).resolve_left h

/-- C7 witness: the SQL-intent query reports needs_sql (not ok) and its
sources are empty. -/
theorem sources_empty_unless_ok_witness :
    (generate_answer kwRel0 vecRel0 scorerFail gen0 [chunkYale]
      "What is my expense status for report 123?" noFilters 30 5).status ≠
      AnswerStatus.ok ∧
    (generate_answer kwRel0 vecRel0 scorerFail gen0 [chunkYale]
      "What is my expense status for report 123?" noFilters 30 5).sources = [] :=
  ⟨by decide,
   sources_empty_unless_ok kwRel0 vecRel0 scorerFail gen0 [chunkYale]
     "What is my expense status for report 123?" noFilters 30 5 (by decide)⟩

/-- C8: on an ok answer the sources are emitted in the final rank
order (scores descending), and every text snippet is at most 350 characters
and cut at a word boundary: it is empty, ends at a space, or is the
untruncated content of a stored chunk. -/
theorem ok_sources_ranked_snippets (kwRel : String → Chunk → Option ℚ)
    (vecRel : String → Chunk → ℚ) (scorer : String → String → Option ℚ)
    (gen : String → String → Option String) (store : List Chunk) (q : String)
    (explicit : Filters) (ck fk : Nat)
    (h : (generate_answer kwRel vecRel scorer gen store q explicit ck fk).status =
      AnswerStatus.ok) :
    (generate_answer kwRel vecRel scorer gen store q explicit ck fk).sources.Pairwise
      (fun a b => b.score ≤ a.score) ∧
    ∀ src ∈ (generate_answer kwRel vecRel scorer gen store q explicit ck fk).sources,
      src.text_snippet.length ≤ 350 ∧
      (src.text_snippet.data = [] ∨ src.text_snippet.data.getLast? = some ' ' ∨
       ∃ c ∈ store, src.text_snippet = c.content) := by
  refine ⟨generate_answer_sources_sorted kwRel vecRel scorer gen store q explicit ck fk, ?_⟩
  intro src hsrc
  rcases mem_generate_answer_sources kwRel vecRel scorer gen store q explicit ck fk src hsrc
    with ⟨cand, hcand, he⟩
  rcases mem_rerank scorer q _ fk cand hcand with ⟨c0, hc0, hchunk⟩
  have hm := mem_hybrid_search kwRel vecRel store q (route_question q explicit).filters
    ck c0 hc0
  rw [he]
  refine ⟨truncate_snippet_length 350 cand.chunk.content, ?_⟩
  rcases truncate_snippet_boundary 350 cand.chunk.content with heq | hnil | hlast
  · right; right
    refine ⟨c0.chunk, hm.1, ?_⟩
    show truncate_snippet 350 cand.chunk.content = c0.chunk.content
    rw [heq, hchunk]
  · left; exact hnil
  · right; left; exact hlast

/-- C8 witness: a successful Stanford run has status ok, descending source
scores, and compliant snippets. -/
theorem ok_sources_ranked_snippets_witness :
    (generate_answer kwRel0 vecRel0 scorerFail gen0 [chunkStanford]
      "What is Stanford\x27s travel policy?" noFilters 30 5).status = AnswerStatus.ok ∧
    ((generate_answer kwRel0 vecRel0 scorerFail gen0 [chunkStanford]
        "What is Stanford\x27s travel policy?" noFilters 30 5).sources.Pairwise
      (fun a b => b.score ≤ a.score) ∧
     ∀ src ∈ (generate_answer kwRel0 vecRel0 scorerFail gen0 [chunkStanford]
         "What is Stanford\x27s travel policy?" noFilters 30 5).sources,
       src.text_snippet.length ≤ 350 ∧
       (src.text_snippet.data = [] ∨ src.text_snippet.data.getLast? = some ' ' ∨
        ∃ c ∈ [chunkStanford], src.text_snippet = c.content)) :=
  ⟨by decide,
   ok_sources_ranked_snippets kwRel0 vecRel0 scorerFail gen0 [chunkStanford]
     "What is Stanford\x27s travel policy?" noFilters 30 5 (by decide)⟩

/-- C9: the router is a total deterministic function: every query and filter
combination yields one of the four routes, and the route reported by the answer operation
equals the route computed by the router for any choice of retrieval, scoring and
generation backends, showing the routing decision invokes none of them. -/
theorem router_total_deterministic (q : String) (f : Filters)
    (kwRel : String → Chunk → Option ℚ) (vecRel : String → Chunk → ℚ)
    (scorer : String → String → Option ℚ) (gen : String → String → Option String)
    (store : List Chunk) (ck fk : Nat) :
    ((route_question q f).route = Route.SQL_NOT_READY ∨
     (route_question q f).route = Route.CLARIFY ∨
     (route_question q f).route = Route.RAG_FILTERED ∨
     (route_question q f).route = Route.RAG_ALL) ∧
    (generate_answer kwRel vecRel scorer gen store q f ck fk).route =
      (route_question q f).route := by
  refine ⟨?_, generate_answer_route_eq kwRel vecRel scorer gen store q f ck fk⟩
  cases h : (route_question q f).route
  · exact Or.inl rfl
  · exact Or.inr (Or.inl rfl)
  · exact Or.inr (Or.inr (Or.inl rfl))
  · exact Or.inr (Or.inr (Or.inr rfl))

/-- C10: the organization registry is the fixed eight-element set of
canonical ids; the frontend ORGANIZATIONS constant is a permutation of their
uppercase spellings; every extracted org id belongs to the registry; and
whenever the org of every stored chunk belongs to the registry, so does the
org of every emitted source. -/
theorem org_registry_eight :
    supported_orgs =
      ["ASU", "Columbia", "Michigan", "Yale", "Princeton", "NYU", "Stanford", "Rutgers"] ∧
    supported_orgs.length = 8 ∧
    List.Perm ORGANIZATIONS (supported_orgs.map upperString) ∧
    (∀ q, ∀ o ∈ extract_orgs q, o ∈ supported_orgs) ∧
    ∀ (kwRel : String → Chunk → Option ℚ) (vecRel : String → Chunk → ℚ)
      (scorer : String → String → Option ℚ) (gen : String → String → Option String)
      (store : List Chunk) (q : String) (f : Filters) (ck fk : Nat),
      (∀ c ∈ store, c.org ∈ supported_orgs) →
      ∀ src ∈ (generate_answer kwRel vecRel scorer gen store q f ck fk).sources,
        src.org ∈ supported_orgs := by
  refine ⟨by decide, by decide, by decide, extract_orgs_subset, ?_⟩
  intro kwRel vecRel scorer gen store q f ck fk hstore src hsrc
  rcases mem_generate_answer_sources kwRel vecRel scorer gen store q f ck fk src hsrc
    with ⟨cand, hcand, he⟩
  rcases mem_rerank scorer q _ fk cand hcand with ⟨c0, hc0, hchunk⟩
  have hm := mem_hybrid_search kwRel vecRel store q (route_question q f).filters ck c0 hc0
  rw [he]
  show cand.chunk.org ∈ supported_orgs
  rw [hchunk]
  exact hstore c0.chunk hm.1

/-- C10 witness: a store whose single chunk has org Stanford satisfies the
store hypothesis, and the org of every emitted source is in the registry. -/
theorem org_registry_eight_witness :
    (∀ c ∈ ([chunkStanford] : List Chunk), c.org ∈ supported_orgs) ∧
    ∀ src ∈ (generate_answer kwRel0 vecRel0 scorerFail gen0 [chunkStanford]
        "What is Stanford\x27s travel policy?" noFilters 30 5).sources,
      src.org ∈ supported_orgs :=
  ⟨by decide,
   org_registry_eight.2.2.2.2 kwRel0 vecRel0 scorerFail gen0 [chunkStanford]
     "What is Stanford\x27s travel policy?" noFilters 30 5 (by decide)⟩

end ExpenseAI
